import Mathlib

/-!
The libretro shell of the 2048 core (`src/libretro.c`)

A shallow embedding of the plugin shell: its static variables become the
fields of `State`, every entry point becomes a function on `State`, and every
call that leaves the file (host callbacks, libc, the game module of `game.h`)
is appended to `State.trace`.  Anything the C code leaves undefined (a call
through a NULL function pointer, a copy that runs past a buffer) yields `none`.
A buffer the host passes in is a list of bytes apart from the memory of the
core.  `retro_get_system_info` and `retro_get_system_av_info`, which only fill
a struct of the caller, are left out.
-/

namespace Libretro2048

/-! ## Memory -/

/-- One byte of memory. -/
abbrev Byte := Fin 256

/-- The addresses the shell handles.  It never does arithmetic on them. -/
inductive Ptr where
  | NULL
  | blob
  | heap (a : Nat)
deriving DecidableEq, Repr

/-- Modelled from the spec: `game_data()` of `game.h` (its body is not in
`src/`) yields the address of the fixed-size blob holding the whole mutable
game state, and has no other effect. -/
def game_data : Ptr := Ptr.blob

/-- `memcpy(dst, src, n)` on two regions that do not overlap; the result is the
new content of `dst`.  Copying past the end of either region is undefined. -/
def memcpy (dst src : List Byte) (n : Nat) : Option (List Byte) :=
  if n ≤ dst.length ∧ n ≤ src.length then some (src.take n ++ dst.drop n) else none

/-- `fread(ptr, size, 1, fp)` on a stream positioned at the start of a file
whose content is `file`: bytes are stored in the order read until `size` of
them are stored or the file ends; the result is the new content at `ptr`. -/
def fread (dst : List Byte) (size : Nat) (file : List Byte) : Option (List Byte) :=
  if min size file.length ≤ dst.length then
    some (file.take size ++ dst.drop (min size file.length))
  else none

/-! ## Types of `libretro.h` and `game.h` -/

/-- The value of the C variable `frame_time` (a `float`), kept symbolically:
either its initialiser `0` or `usec / 1000000.0` for the last `usec` given to
`frame_time_cb`. -/
inductive FrameTime where
  | zero
  | of_usec (usec : Int)
deriving DecidableEq, Repr

/-- `key_state_t` of `game.h`; each field holds the `int16_t` the host returned. -/
structure key_state_t where
  up : Int
  right : Int
  down : Int
  left : Int
  start : Int
  select : Int
deriving DecidableEq, Repr

/-- `struct retro_input_descriptor`. -/
structure retro_input_descriptor where
  port : Nat
  device : Nat
  index : Nat
  id : Nat
  description : Option String
deriving DecidableEq, Repr

/-- `struct retro_game_info`, as far as the shell could look at it. -/
structure retro_game_info where
  path : Option String
  data : List Byte
deriving DecidableEq, Repr

/-- The function stored in `logging.log`: the fallback of this file (which
prints to stderr) or a function of the host. -/
inductive LogFn where
  | fallback_log
  | host (id : Nat)
deriving DecidableEq, Repr

/-- What the `void *data` argument of the environment callback points at. -/
inductive EnvArg where
  | uninit
  | bool (b : Bool)
  | str (p : Option String)
  | pixel_format (fmt : Nat)
  | input_descriptors (desc : List retro_input_descriptor)
  | log_callback (log : Option LogFn)
  | frame_time_callback (reference : Nat)
deriving DecidableEq, Repr

/-- The constants of `libretro.h` the shell uses (the header is not in `src/`). -/
structure LibretroH where
  RETRO_API_VERSION : Nat
  RETRO_REGION_NTSC : Nat
  RETRO_MEMORY_SAVE_RAM : Nat
  RETRO_DEVICE_JOYPAD : Nat
  RETRO_DEVICE_ID_JOYPAD_UP : Nat
  RETRO_DEVICE_ID_JOYPAD_DOWN : Nat
  RETRO_DEVICE_ID_JOYPAD_LEFT : Nat
  RETRO_DEVICE_ID_JOYPAD_RIGHT : Nat
  RETRO_DEVICE_ID_JOYPAD_START : Nat
  RETRO_DEVICE_ID_JOYPAD_SELECT : Nat
  RETRO_PIXEL_FORMAT_RGB565 : Nat
  RETRO_LOG_INFO : Nat
  RETRO_LOG_WARN : Nat
  RETRO_ENVIRONMENT_GET_SAVE_DIRECTORY : Nat
  RETRO_ENVIRONMENT_SET_SUPPORT_NO_GAME : Nat
  RETRO_ENVIRONMENT_GET_LOG_INTERFACE : Nat
  RETRO_ENVIRONMENT_SET_INPUT_DESCRIPTORS : Nat
  RETRO_ENVIRONMENT_SET_PIXEL_FORMAT : Nat
  RETRO_ENVIRONMENT_SET_FRAME_TIME_CALLBACK : Nat

/-- The memory of the game module: the blob at `game_data()` and the rest. -/
structure Engine (X : Type) where
  data : List Byte
  priv : X

/-- The interface of `game.h` (the game module is not in `src/`): its screen
constants, the constant `game_data_size()` returns, and, for each function the
shell calls, the function's effect on the memory of the game module.
`game_save_data` also yields the address it returns. -/
structure GameH (X : Type) where
  SCREEN_WIDTH : Nat
  SCREEN_HEIGHT : Nat
  SCREEN_PITCH : Engine X → Nat
  game_data_size : Nat
  game_calculate_pitch : Engine X → Engine X
  game_init : Ptr → Engine X → Engine X
  game_deinit : Engine X → Engine X
  game_reset : Engine X → Engine X
  game_update : FrameTime → key_state_t → Engine X → Engine X
  game_render : Engine X → Engine X
  game_save_data : Engine X → Ptr × Engine X

/-- The part of libc whose answers the shell depends on. -/
structure Sys where
  calloc : Nat → Nat → Ptr
  fopen_rb : String → Option (List Byte)
  fopen_wb : String → Bool

/-- A call that leaves `libretro.c`. -/
inductive Event where
  | environ (cmd : Nat) (arg : EnvArg)
  | log (fn : LogFn) (level : Nat) (fmt : String)
  | input_poll (cb : Nat)
  | input_state (port device index id : Nat)
  | video_refresh (cb : Nat) (data : Ptr) (width height pitch : Nat)
  | calloc (nmemb size : Nat)
  | free (p : Ptr)
  | fopen (filename mode : String)
  | fread (size nmemb : Nat)
  | fwrite (bytes : List Byte)
  | fclose
  | game_calculate_pitch
  | game_init (frame_buf : Ptr)
  | game_deinit
  | game_reset
  | game_update (frame_time : FrameTime) (ks : key_state_t)
  | game_render
  | game_save_data
deriving DecidableEq, Repr

/-- The static variables of `libretro.c`, the memory of the game module and
the calls made so far. -/
structure State (X : Type) where
  frame_buf : Ptr
  logging : Option LogFn
  video_cb : Option Nat
  audio_cb : Option Nat
  audio_batch_cb : Option Nat
  environ_cb : Option (Nat → EnvArg → Bool × EnvArg)
  input_poll_cb : Option Nat
  input_state_cb : Option (Nat → Nat → Nat → Nat → Int)
  frame_time : FrameTime
  game : Engine X
  trace : List Event

variable {X : Type}

/-- The bytes at an address, where the model knows them. -/
def State.load (s : State X) : Ptr → Option (List Byte)
  | Ptr.blob => some s.game.data
  | _ => none

/-- Overwrite the bytes at an address. -/
def State.store (s : State X) : Ptr → List Byte → Option (State X)
  | Ptr.blob, bs => some { s with game := { s.game with data := bs } }
  | _, _ => none

/-- Record a call. -/
def State.emit (s : State X) (e : Event) : State X :=
  { s with trace := s.trace ++ [e] }

/-! ## Save states and save RAM (`libretro.c` 233-270) -/

def retro_serialize_size (h : GameH X) : Nat :=
  h.game_data_size

def retro_serialize (h : GameH X) (s : State X) (data_ : List Byte) (size : Nat) :
    Option (Bool × List Byte × State X) :=
  if size < h.game_data_size then
    some (false, data_, s)
  else do
    let src ← s.load game_data
    let dst ← memcpy data_ src h.game_data_size
    some (true, dst, s)

def retro_unserialize (h : GameH X) (s : State X) (data_ : List Byte) (size : Nat) :
    Option (Bool × State X) :=
  if size < h.game_data_size then
    some (false, s)
  else do
    let dst ← s.load game_data
    let dst ← memcpy dst data_ h.game_data_size
    let s ← s.store game_data dst
    some (true, s)

def retro_get_memory_data (L : LibretroH) (id : Nat) : Ptr :=
  if id ≠ L.RETRO_MEMORY_SAVE_RAM then Ptr.NULL else game_data

def retro_get_memory_size (h : GameH X) (L : LibretroH) (id : Nat) : Nat :=
  if id ≠ L.RETRO_MEMORY_SAVE_RAM then 0 else h.game_data_size

/-! ## Callback registration (`libretro.c` 125-159) -/

def retro_set_environment (L : LibretroH) (s : State X)
    (cb : Option (Nat → EnvArg → Bool × EnvArg)) : Option (State X) := do
  let s := { s with environ_cb := cb }
  let f ← cb
  let s := s.emit (Event.environ L.RETRO_ENVIRONMENT_SET_SUPPORT_NO_GAME (EnvArg.bool true))
  let r := f L.RETRO_ENVIRONMENT_GET_LOG_INTERFACE (EnvArg.log_callback s.logging)
  let s := s.emit (Event.environ L.RETRO_ENVIRONMENT_GET_LOG_INTERFACE (EnvArg.log_callback s.logging))
  if !r.1 then
    some { s with logging := some LogFn.fallback_log }
  else
    match r.2 with
    | EnvArg.log_callback lg => some { s with logging := lg }
    | _ => none

def retro_set_audio_sample (s : State X) (cb : Option Nat) : State X :=
  { s with audio_cb := cb }

def retro_set_audio_sample_batch (s : State X) (cb : Option Nat) : State X :=
  { s with audio_batch_cb := cb }

def retro_set_input_poll (s : State X) (cb : Option Nat) : State X :=
  { s with input_poll_cb := cb }

def retro_set_input_state (s : State X) (cb : Option (Nat → Nat → Nat → Nat → Int)) : State X :=
  { s with input_state_cb := cb }

def retro_set_video_refresh (s : State X) (cb : Option Nat) : State X :=
  { s with video_cb := cb }

/-! ## Start and stop (`libretro.c` 33-91) -/

/-- Call through `logging.log`; the variadic arguments are not recorded. -/
def State.log (s : State X) (level : Nat) (fmt : String) : Option (State X) := do
  let fn ← s.logging
  some (s.emit (Event.log fn level fmt))

/-- The effect of `char filename[1024] = {0}; sprintf(filename, "%s/2048.srm", savedir);`:
the text and its terminator have to fit the array. -/
def sprintf_filename (savedir : String) : Option String :=
  if savedir.utf8ByteSize + 10 ≤ 1024 then some (savedir ++ "/2048.srm") else none

def retro_init (h : GameH X) (L : LibretroH) (sys : Sys) (s : State X) : Option (State X) := do
  let s := ({ s with game := h.game_calculate_pitch s.game } : State X).emit Event.game_calculate_pitch
  let nmemb := h.SCREEN_HEIGHT
  let size := h.SCREEN_PITCH s.game
  let s := ({ s with frame_buf := sys.calloc nmemb size } : State X).emit (Event.calloc nmemb size)
  let s := ({ s with game := h.game_init s.frame_buf s.game } : State X).emit
    (Event.game_init s.frame_buf)
  let env ← s.environ_cb
  let r := env L.RETRO_ENVIRONMENT_GET_SAVE_DIRECTORY EnvArg.uninit
  let s := s.emit (Event.environ L.RETRO_ENVIRONMENT_GET_SAVE_DIRECTORY EnvArg.uninit)
  match r.2 with
  | EnvArg.str (some savedir) => do
    let filename ← sprintf_filename savedir
    let s := s.emit (Event.fopen filename "rb")
    match sys.fopen_rb filename with
    | some file => do
      let dst ← s.load game_data
      let dst ← fread dst h.game_data_size file
      let s ← s.store game_data dst
      let s := s.emit (Event.fread h.game_data_size 1)
      some (s.emit Event.fclose)
    | none => s.log L.RETRO_LOG_WARN "[2048] unable to load game data: %s."
  | EnvArg.str none =>
    s.log L.RETRO_LOG_WARN "[2048] unable to load game data: save directory not set."
  | _ => none

def retro_deinit (h : GameH X) (L : LibretroH) (sys : Sys) (s : State X) : Option (State X) := do
  let env ← s.environ_cb
  let r := env L.RETRO_ENVIRONMENT_GET_SAVE_DIRECTORY EnvArg.uninit
  let s := s.emit (Event.environ L.RETRO_ENVIRONMENT_GET_SAVE_DIRECTORY EnvArg.uninit)
  let s ← match r.2 with
    | EnvArg.str (some savedir) => do
      let filename ← sprintf_filename savedir
      let s := s.emit (Event.fopen filename "wb")
      if sys.fopen_wb filename then do
        let r := h.game_save_data s.game
        let s := ({ s with game := r.2 } : State X).emit Event.game_save_data
        let src ← s.load r.1
        if h.game_data_size ≤ src.length then
          some ((s.emit (Event.fwrite (src.take h.game_data_size))).emit Event.fclose)
        else none
      else s.log L.RETRO_LOG_WARN "[2048] unable to save game data: %s."
    | EnvArg.str none =>
      s.log L.RETRO_LOG_WARN "[2048] unable to save game data: save directory not set."
    | _ => none
  let s := ({ s with game := h.game_deinit s.game } : State X).emit Event.game_deinit
  let s := s.emit (Event.free s.frame_buf)
  some { s with frame_buf := Ptr.NULL }

/-! ## The small entry points (`libretro.c` 93-102, 161-169, 216-231, 272-280) -/

def retro_api_version (L : LibretroH) : Nat :=
  L.RETRO_API_VERSION

def retro_set_controller_port_device (s : State X) (_port _device : Nat) : State X :=
  s

def retro_reset (h : GameH X) (s : State X) : State X :=
  ({ s with game := h.game_reset s.game } : State X).emit Event.game_reset

def frame_time_cb (s : State X) (usec : Int) : State X :=
  { s with frame_time := FrameTime.of_usec usec }

def retro_unload_game (s : State X) : State X :=
  s

def retro_get_region (L : LibretroH) : Nat :=
  L.RETRO_REGION_NTSC

def retro_load_game_special (_type : Nat) (_info : Option retro_game_info) (_num : Nat) : Bool :=
  false

def retro_cheat_reset (s : State X) : State X :=
  s

def retro_cheat_set (s : State X) (_index : Nat) (_enabled : Bool) (_code : Option String) :
    State X :=
  s

/-! ## One frame (`libretro.c` 171-188) -/

def retro_run (h : GameH X) (L : LibretroH) (s : State X) : Option (State X) := do
  let poll ← s.input_poll_cb
  let s := s.emit (Event.input_poll poll)
  let input_state ← s.input_state_cb
  let up := input_state 0 L.RETRO_DEVICE_JOYPAD 0 L.RETRO_DEVICE_ID_JOYPAD_UP
  let s := s.emit (Event.input_state 0 L.RETRO_DEVICE_JOYPAD 0 L.RETRO_DEVICE_ID_JOYPAD_UP)
  let right := input_state 0 L.RETRO_DEVICE_JOYPAD 0 L.RETRO_DEVICE_ID_JOYPAD_RIGHT
  let s := s.emit (Event.input_state 0 L.RETRO_DEVICE_JOYPAD 0 L.RETRO_DEVICE_ID_JOYPAD_RIGHT)
  let down := input_state 0 L.RETRO_DEVICE_JOYPAD 0 L.RETRO_DEVICE_ID_JOYPAD_DOWN
  let s := s.emit (Event.input_state 0 L.RETRO_DEVICE_JOYPAD 0 L.RETRO_DEVICE_ID_JOYPAD_DOWN)
  let left := input_state 0 L.RETRO_DEVICE_JOYPAD 0 L.RETRO_DEVICE_ID_JOYPAD_LEFT
  let s := s.emit (Event.input_state 0 L.RETRO_DEVICE_JOYPAD 0 L.RETRO_DEVICE_ID_JOYPAD_LEFT)
  let start := input_state 0 L.RETRO_DEVICE_JOYPAD 0 L.RETRO_DEVICE_ID_JOYPAD_START
  let s := s.emit (Event.input_state 0 L.RETRO_DEVICE_JOYPAD 0 L.RETRO_DEVICE_ID_JOYPAD_START)
  let select := input_state 0 L.RETRO_DEVICE_JOYPAD 0 L.RETRO_DEVICE_ID_JOYPAD_SELECT
  let s := s.emit (Event.input_state 0 L.RETRO_DEVICE_JOYPAD 0 L.RETRO_DEVICE_ID_JOYPAD_SELECT)
  let ks : key_state_t := ⟨up, right, down, left, start, select⟩
  let s := ({ s with game := h.game_update s.frame_time ks s.game } : State X).emit
    (Event.game_update s.frame_time ks)
  let s := ({ s with game := h.game_render s.game } : State X).emit Event.game_render
  let video ← s.video_cb
  some (s.emit (Event.video_refresh video s.frame_buf h.SCREEN_WIDTH h.SCREEN_HEIGHT
    (h.SCREEN_PITCH s.game)))

/-! ## Loading a game (`libretro.c` 190-214) -/

/-- The array `desc` of `retro_load_game`, its all-zero terminator included. -/
def input_descriptors (L : LibretroH) : List retro_input_descriptor :=
  [ ⟨0, L.RETRO_DEVICE_JOYPAD, 0, L.RETRO_DEVICE_ID_JOYPAD_LEFT, some "Left"⟩,
    ⟨0, L.RETRO_DEVICE_JOYPAD, 0, L.RETRO_DEVICE_ID_JOYPAD_UP, some "Up"⟩,
    ⟨0, L.RETRO_DEVICE_JOYPAD, 0, L.RETRO_DEVICE_ID_JOYPAD_DOWN, some "Down"⟩,
    ⟨0, L.RETRO_DEVICE_JOYPAD, 0, L.RETRO_DEVICE_ID_JOYPAD_RIGHT, some "Right"⟩,
    ⟨0, 0, 0, 0, none⟩ ]

def retro_load_game (L : LibretroH) (s : State X) (_info : Option retro_game_info) :
    Option (Bool × State X) := do
  let env ← s.environ_cb
  let s := s.emit (Event.environ L.RETRO_ENVIRONMENT_SET_INPUT_DESCRIPTORS
    (EnvArg.input_descriptors (input_descriptors L)))
  let fmt := L.RETRO_PIXEL_FORMAT_RGB565
  let r := env L.RETRO_ENVIRONMENT_SET_PIXEL_FORMAT (EnvArg.pixel_format fmt)
  let s := s.emit (Event.environ L.RETRO_ENVIRONMENT_SET_PIXEL_FORMAT (EnvArg.pixel_format fmt))
  if !r.1 then do
    let s ← s.log L.RETRO_LOG_INFO "RGB565 is not supported.\n"
    some (false, s)
  else
    let s := s.emit (Event.environ L.RETRO_ENVIRONMENT_SET_FRAME_TIME_CALLBACK
      (EnvArg.frame_time_callback (1000000 / 60)))
    some (true, s)

/-! ## Sequences of calls into the shell -/

/-- What the host may do to the core between `retro_init` and `retro_deinit`. -/
inductive Call where
  | set_environment (cb : Option (Nat → EnvArg → Bool × EnvArg))
  | set_audio_sample (cb : Option Nat)
  | set_audio_sample_batch (cb : Option Nat)
  | set_input_poll (cb : Option Nat)
  | set_input_state (cb : Option (Nat → Nat → Nat → Nat → Int))
  | set_video_refresh (cb : Option Nat)
  | set_controller_port_device (port device : Nat)
  | reset
  | frame_time (usec : Int)
  | run
  | load_game (info : Option retro_game_info)
  | unload_game
  | serialize (data_ : List Byte) (size : Nat)
  | unserialize (data_ : List Byte) (size : Nat)
  | write_memory (id : Nat) (bytes : List Byte)
  | cheat_reset
  | cheat_set (index : Nat) (enabled : Bool) (code : Option String)

/-- The state after one call; the value the call returns is dropped.
`write_memory` is the host writing through `retro_get_memory_data(id)`. -/
def step (h : GameH X) (L : LibretroH) (s : State X) : Call → Option (State X)
  | Call.set_environment cb => retro_set_environment L s cb
  | Call.set_audio_sample cb => some (retro_set_audio_sample s cb)
  | Call.set_audio_sample_batch cb => some (retro_set_audio_sample_batch s cb)
  | Call.set_input_poll cb => some (retro_set_input_poll s cb)
  | Call.set_input_state cb => some (retro_set_input_state s cb)
  | Call.set_video_refresh cb => some (retro_set_video_refresh s cb)
  | Call.set_controller_port_device port device =>
    some (retro_set_controller_port_device s port device)
  | Call.reset => some (retro_reset h s)
  | Call.frame_time usec => some (frame_time_cb s usec)
  | Call.run => retro_run h L s
  | Call.load_game info => (retro_load_game L s info).map Prod.snd
  | Call.unload_game => some (retro_unload_game s)
  | Call.serialize data_ size => (retro_serialize h s data_ size).map (fun r => r.2.2)
  | Call.unserialize data_ size => (retro_unserialize h s data_ size).map Prod.snd
  | Call.write_memory id bytes => s.store (retro_get_memory_data L id) bytes
  | Call.cheat_reset => some (retro_cheat_reset s)
  | Call.cheat_set index enabled code => some (retro_cheat_set s index enabled code)

/-- The state after a sequence of calls. -/
def exec (h : GameH X) (L : LibretroH) : State X → List Call → Option (State X)
  | s, [] => some s
  | s, c :: cs => (step h L s c).bind (fun s1 => exec h L s1 cs)

/-! ## Sample instances, used to run the definitions on concrete inputs -/

/-- The values the public libretro API header gives the constants. -/
def libretro_h : LibretroH where
  RETRO_API_VERSION := 1
  RETRO_REGION_NTSC := 0
  RETRO_MEMORY_SAVE_RAM := 0
  RETRO_DEVICE_JOYPAD := 1
  RETRO_DEVICE_ID_JOYPAD_UP := 4
  RETRO_DEVICE_ID_JOYPAD_DOWN := 5
  RETRO_DEVICE_ID_JOYPAD_LEFT := 6
  RETRO_DEVICE_ID_JOYPAD_RIGHT := 7
  RETRO_DEVICE_ID_JOYPAD_START := 3
  RETRO_DEVICE_ID_JOYPAD_SELECT := 2
  RETRO_PIXEL_FORMAT_RGB565 := 2
  RETRO_LOG_INFO := 1
  RETRO_LOG_WARN := 2
  RETRO_ENVIRONMENT_GET_SAVE_DIRECTORY := 31
  RETRO_ENVIRONMENT_SET_SUPPORT_NO_GAME := 18
  RETRO_ENVIRONMENT_GET_LOG_INTERFACE := 27
  RETRO_ENVIRONMENT_SET_INPUT_DESCRIPTORS := 11
  RETRO_ENVIRONMENT_SET_PIXEL_FORMAT := 10
  RETRO_ENVIRONMENT_SET_FRAME_TIME_CALLBACK := 21

/-- A stand-in game module with a four-byte blob: `game_init` zeroes the blob,
`game_update` stores the low bits of the direction keys in its first byte. -/
def toy_game : GameH Nat where
  SCREEN_WIDTH := 376
  SCREEN_HEIGHT := 464
  SCREEN_PITCH := fun _ => 752
  game_data_size := 4
  game_calculate_pitch := fun e => e
  game_init := fun _ e => { e with data := [0, 0, 0, 0], priv := 1 }
  game_deinit := fun e => { e with priv := 0 }
  game_reset := fun e => { e with data := [0, 0, 0, 0] }
  game_update := fun _ ks e =>
    { e with data := (Fin.ofNat (ks.up.toNat % 2 + 2 * (ks.down.toNat % 2))) :: e.data.drop 1 }
  game_render := fun e => { e with priv := e.priv + 1 }
  game_save_data := fun e => (Ptr.blob, e)

/-- The state of the shell when the library has just been loaded: every static
variable is zero. -/
def fresh (blob : List Byte) : State Nat where
  frame_buf := Ptr.NULL
  logging := none
  video_cb := none
  audio_cb := none
  audio_batch_cb := none
  environ_cb := none
  input_poll_cb := none
  input_state_cb := none
  frame_time := FrameTime.zero
  game := ⟨blob, 0⟩
  trace := []

/-- A host environment callback: it reports the save directory `dir`, takes a
pixel format exactly when `accept` is set, and offers no log interface. -/
def toy_environ (dir : Option String) (accept : Bool) : Nat → EnvArg → Bool × EnvArg :=
  fun cmd arg =>
    if cmd = libretro_h.RETRO_ENVIRONMENT_GET_SAVE_DIRECTORY then (true, EnvArg.str dir)
    else if cmd = libretro_h.RETRO_ENVIRONMENT_SET_PIXEL_FORMAT then (accept, arg)
    else if cmd = libretro_h.RETRO_ENVIRONMENT_GET_LOG_INTERFACE then (false, arg)
    else (true, arg)

/-- A libc whose only readable file is `/s/2048.srm` (when `file` is given) and
where no file can be opened for writing. -/
def toy_sys (file : Option (List Byte)) : Sys where
  calloc := fun _ _ => Ptr.heap 4096
  fopen_rb := fun name => if name = "/s/2048.srm" then file else none
  fopen_wb := fun _ => false

/-- A joypad on port 0 with UP and START held down. -/
def toy_pad : Nat → Nat → Nat → Nat → Int :=
  fun port device index id =>
    if port = 0 ∧ device = 1 ∧ index = 0 ∧ (id = 4 ∨ id = 3) then 1 else 0

/-- The state once the host has registered its callbacks. -/
def ready (blob : List Byte) (dir : Option String) (accept : Bool) : State Nat :=
  { fresh blob with
    logging := some LogFn.fallback_log
    video_cb := some 11
    environ_cb := some (toy_environ dir accept)
    input_poll_cb := some 12
    input_state_cb := some toy_pad }

/-- A host environment callback that knows no command: it answers false to
every one and stores nothing through the data pointer. -/
def silent_environ : Nat → EnvArg → Bool × EnvArg :=
  fun _ arg => (false, arg)

/-- A save directory whose name is 1015 bytes long. -/
def long_dir : String :=
  String.mk (List.replicate 1015 'd')

/-! ## Reading the trace -/

/-- The key state a `game_update` call was given. -/
def Event.update_arg : Event → Option key_state_t
  | Event.game_update _ ks => some ks
  | _ => none

/-- Calls through `logging.log`. -/
def Event.is_log : Event → Bool
  | Event.log _ _ _ => true
  | _ => false

/-- Calls that read or write a file. -/
def Event.is_file_transfer : Event → Bool
  | Event.fread _ _ => true
  | Event.fwrite _ => true
  | _ => false

/-- Calls that hand the host a frame-time callback. -/
def Event.is_frame_time_registration : Event → Bool
  | Event.environ _ (EnvArg.frame_time_callback _) => true
  | _ => false

/-- The calls a state has recorded beyond those of an earlier state. -/
def State.since (s1 s : State X) : List Event :=
  s1.trace.drop s.trace.length

/-! ## Facts about the memory primitives -/

theorem memcpy_eq (dst src : List Byte) (n : Nat) (hd : n ≤ dst.length) (hs : n ≤ src.length) :
    memcpy dst src n = some (src.take n ++ dst.drop n) := by
  simp [memcpy, hd, hs]

theorem load_game_data (s : State X) : s.load game_data = some s.game.data := rfl

theorem store_game_data (s : State X) (bs : List Byte) :
    s.store game_data bs = some { s with game := { s.game with data := bs } } := rfl

/-! ## Save states -/

/-- C1: a state saved with `retro_serialize` into a buffer of at least
`game_data_size()` bytes and later loaded from that buffer with
`retro_unserialize`, whatever the game data has become meanwhile, makes both
calls return true and brings back the saved game data byte for byte. -/
theorem retro_serialize_unserialize_round_trip (h : GameH X) (s later : State X)
    (buf : List Byte) (n : Nat)
    (hd : s.game.data.length = h.game_data_size)
    (hlater : later.game.data.length = h.game_data_size)
    (hn : h.game_data_size ≤ n) (hbuf : n ≤ buf.length) :
    ∃ buf1 s1 s2, retro_serialize h s buf n = some (true, buf1, s1) ∧
      s1.game.data = s.game.data ∧
      retro_unserialize h later buf1 n = some (true, s2) ∧
      s2.game.data = s.game.data := by
  have hlt : ¬ n < h.game_data_size := Nat.not_lt.mpr hn
  have hb : h.game_data_size ≤ buf.length := le_trans hn hbuf
  refine ⟨s.game.data.take h.game_data_size ++ buf.drop h.game_data_size, s,
    { later with game := { later.game with data := s.game.data } }, ?_, rfl, ?_, rfl⟩
  · simp [retro_serialize, hlt, load_game_data, memcpy_eq _ _ _ hb (le_of_eq hd.symm)]
  · have h1 : h.game_data_size ≤
        (s.game.data.take h.game_data_size ++ buf.drop h.game_data_size).length := by
      simp [hd]
    simp only [retro_unserialize, hlt, if_false, load_game_data,
      memcpy_eq _ _ _ (le_of_eq hlater.symm) h1, store_game_data, Option.bind_eq_bind,
      Option.some_bind]
    have h2 : later.game.data.drop h.game_data_size = [] := by
      simp [List.drop_eq_nil_iff, hlater]
    have h3 : (s.game.data.take h.game_data_size ++ buf.drop h.game_data_size).take
        h.game_data_size = s.game.data := by
      rw [List.take_append_of_le_length (by simp [hd]), List.take_take, Nat.min_self,
        List.take_of_length_le (le_of_eq hd)]
    rw [h2, h3, List.append_nil]

/-- Witness for C1: the toy game with blob `[1, 2, 3, 4]`, a five-byte buffer,
and a later state whose blob is `[7, 7, 7, 7]`. -/
theorem retro_serialize_unserialize_round_trip_witness :
    (fresh [1, 2, 3, 4]).game.data.length = toy_game.game_data_size ∧
    ∃ buf1 s1 s2,
      retro_serialize toy_game (fresh [1, 2, 3, 4]) [9, 9, 9, 9, 9] 5 = some (true, buf1, s1) ∧
      s1.game.data = (fresh [1, 2, 3, 4]).game.data ∧
      retro_unserialize toy_game (fresh [7, 7, 7, 7]) buf1 5 = some (true, s2) ∧
      s2.game.data = (fresh [1, 2, 3, 4]).game.data :=
  ⟨by decide, retro_serialize_unserialize_round_trip toy_game (fresh [1, 2, 3, 4])
    (fresh [7, 7, 7, 7]) [9, 9, 9, 9, 9] 5 (by decide) (by decide) (by decide) (by decide)⟩

/-- C2, as stated, fails: the toy game has a four-byte blob, and a five-byte
input is accepted. -/
theorem retro_unserialize_accepts_larger_size :
    5 ≠ toy_game.game_data_size ∧
    (retro_unserialize toy_game (fresh [0, 0, 0, 0]) [1, 2, 3, 4, 5] 5).map Prod.fst = some true ∧
    (retro_unserialize toy_game (fresh [0, 0, 0, 0]) [1, 2, 3, 4, 5] 5).map
      (fun r => r.2.game.data) = some [1, 2, 3, 4] := by
  decide

/-- C2, amended: `retro_unserialize(data, n)` returns false exactly for the
sizes `n` smaller than `game_data_size()`; for every other size (equal or
larger) it returns true and the game data becomes the first
`game_data_size()` bytes of the input, the rest of the input being ignored. -/
theorem retro_unserialize_rejects_exactly_smaller (h : GameH X) (s : State X)
    (buf : List Byte) (n : Nat)
    (hd : s.game.data.length = h.game_data_size) (hbuf : n ≤ buf.length) :
    ∃ r s1, retro_unserialize h s buf n = some (r, s1) ∧
      (r = false ↔ n < h.game_data_size) ∧
      (r = true → s1.game.data = buf.take h.game_data_size) := by
  by_cases hlt : n < h.game_data_size
  · exact ⟨false, s, by simp [retro_unserialize, hlt], by simp [hlt], by simp⟩
  · have hb : h.game_data_size ≤ buf.length := le_trans (Nat.not_lt.mp hlt) hbuf
    refine ⟨true, { s with game := { s.game with data := buf.take h.game_data_size } },
      ?_, by simp [hlt], fun _ => rfl⟩
    have h2 : s.game.data.drop h.game_data_size = [] := by
      simp [List.drop_eq_nil_iff, hd]
    simp [retro_unserialize, hlt, load_game_data, memcpy_eq _ _ _ (le_of_eq hd.symm) hb,
      store_game_data, h2]

/-- Witness for the amended C2: a three-byte input is rejected. -/
theorem retro_unserialize_rejects_exactly_smaller_witness :
    (fresh [0, 0, 0, 0]).game.data.length = toy_game.game_data_size ∧
    ∃ r s1, retro_unserialize toy_game (fresh [0, 0, 0, 0]) [1, 2, 3] 3 = some (r, s1) ∧
      (r = false ↔ 3 < toy_game.game_data_size) ∧
      (r = true → s1.game.data = ([1, 2, 3] : List Byte).take toy_game.game_data_size) :=
  ⟨by decide, retro_unserialize_rejects_exactly_smaller toy_game (fresh [0, 0, 0, 0])
    [1, 2, 3] 3 (by decide) (by decide)⟩

/-- C3: whenever `retro_unserialize` returns false, the game data after the
call is the game data before the call. -/
theorem retro_unserialize_failure_keeps_game_data (h : GameH X) (s s1 : State X)
    (buf : List Byte) (n : Nat)
    (hfail : retro_unserialize h s buf n = some (false, s1)) :
    s1.game.data = s.game.data := by
  unfold retro_unserialize at hfail
  split at hfail
  · simp only [Option.some.injEq, Prod.mk.injEq, true_and] at hfail
    rw [hfail]
  · cases h1 : s.load game_data with
    | none => simp [h1] at hfail
    | some dst =>
      cases h2 : memcpy dst buf h.game_data_size with
      | none => simp [h1, h2] at hfail
      | some dst1 =>
        cases h3 : s.store game_data dst1 with
        | none => simp [h1, h2, h3] at hfail
        | some s2 => simp [h1, h2, h3] at hfail

/-- Witness for C3: a three-byte input for the four-byte blob of the toy game. -/
theorem retro_unserialize_failure_keeps_game_data_witness :
    retro_unserialize toy_game (fresh [5, 6, 7, 8]) [1, 2, 3] 3
      = some (false, fresh [5, 6, 7, 8]) ∧
    (fresh [5, 6, 7, 8]).game.data = (fresh [5, 6, 7, 8]).game.data :=
  ⟨rfl, retro_unserialize_failure_keeps_game_data toy_game (fresh [5, 6, 7, 8])
    (fresh [5, 6, 7, 8]) [1, 2, 3] 3 rfl⟩

/-- C10: `retro_serialize` leaves the state of the core, and so the game data,
as it was; it returns false exactly when `n < game_data_size()`, and then the
buffer is unchanged; when it returns true the first `game_data_size()` bytes of
the buffer are the game data and the bytes after them are unchanged. -/
theorem retro_serialize_effect (h : GameH X) (s : State X) (buf : List Byte) (n : Nat)
    (hd : s.game.data.length = h.game_data_size) (hbuf : n ≤ buf.length) :
    ∃ r buf1 s1, retro_serialize h s buf n = some (r, buf1, s1) ∧
      s1 = s ∧ s1.game.data = s.game.data ∧
      (r = false ↔ n < h.game_data_size) ∧
      (r = false → buf1 = buf) ∧
      (r = true → buf1.take h.game_data_size = s.game.data ∧
        buf1.drop h.game_data_size = buf.drop h.game_data_size ∧
        buf1.length = buf.length) := by
  by_cases hlt : n < h.game_data_size
  · exact ⟨false, buf, s, by simp [retro_serialize, hlt], rfl, rfl, by simp [hlt],
      fun _ => rfl, by simp⟩
  · have hb : h.game_data_size ≤ buf.length := le_trans (Nat.not_lt.mp hlt) hbuf
    refine ⟨true, s.game.data.take h.game_data_size ++ buf.drop h.game_data_size, s,
      ?_, rfl, rfl, by simp [hlt], by simp, fun _ => ⟨?_, ?_, ?_⟩⟩
    · simp [retro_serialize, hlt, load_game_data, memcpy_eq _ _ _ hb (le_of_eq hd.symm)]
    · rw [List.take_append_of_le_length (by simp [hd]), List.take_take, Nat.min_self,
        List.take_of_length_le (le_of_eq hd)]
    · rw [List.take_of_length_le (le_of_eq hd), ← hd, List.drop_left]
    · simp [hd]
      omega

/-- Witness for C10: saving the blob `[1, 2, 3, 4]` into a six-byte buffer. -/
theorem retro_serialize_effect_witness :
    (fresh [1, 2, 3, 4]).game.data.length = toy_game.game_data_size ∧
    ∃ r buf1 s1,
      retro_serialize toy_game (fresh [1, 2, 3, 4]) [9, 9, 9, 9, 8, 7] 6 = some (r, buf1, s1) ∧
      s1 = fresh [1, 2, 3, 4] ∧ s1.game.data = (fresh [1, 2, 3, 4]).game.data ∧
      (r = false ↔ 6 < toy_game.game_data_size) ∧
      (r = false → buf1 = [9, 9, 9, 9, 8, 7]) ∧
      (r = true → buf1.take toy_game.game_data_size = (fresh [1, 2, 3, 4]).game.data ∧
        buf1.drop toy_game.game_data_size
          = ([9, 9, 9, 9, 8, 7] : List Byte).drop toy_game.game_data_size ∧
        buf1.length = ([9, 9, 9, 9, 8, 7] : List Byte).length) :=
  ⟨by decide, retro_serialize_effect toy_game (fresh [1, 2, 3, 4]) [9, 9, 9, 9, 8, 7] 6
    (by decide) (by decide)⟩

/-- C7: the save-state size and the size of the save RAM are both
`game_data_size()`; the save RAM address is the blob itself, so bytes the host
writes through `retro_get_memory_data(RETRO_MEMORY_SAVE_RAM)` are what
`retro_serialize` copies out, and what `retro_unserialize` copies in is read
back through that address; every other memory id has size 0 and address NULL. -/
theorem save_ram_is_the_serialized_blob (h : GameH X) (L : LibretroH) (s : State X)
    (bytes buf : List Byte) (n : Nat)
    (hbytes : bytes.length = h.game_data_size)
    (hn : h.game_data_size ≤ n) (hbuf : n ≤ buf.length) :
    retro_serialize_size h = h.game_data_size ∧
    retro_get_memory_size h L L.RETRO_MEMORY_SAVE_RAM = h.game_data_size ∧
    retro_get_memory_data L L.RETRO_MEMORY_SAVE_RAM = game_data ∧
    (∀ id, id ≠ L.RETRO_MEMORY_SAVE_RAM →
      retro_get_memory_size h L id = 0 ∧ retro_get_memory_data L id = Ptr.NULL) ∧
    (∃ s1 buf1 s2,
      s.store (retro_get_memory_data L L.RETRO_MEMORY_SAVE_RAM) bytes = some s1 ∧
      retro_serialize h s1 buf n = some (true, buf1, s1) ∧
      buf1.take h.game_data_size = bytes ∧
      retro_unserialize h s1 buf n = some (true, s2) ∧
      s2.load (retro_get_memory_data L L.RETRO_MEMORY_SAVE_RAM)
        = some (buf.take h.game_data_size)) := by
  have hlt : ¬ n < h.game_data_size := Nat.not_lt.mpr hn
  have hb : h.game_data_size ≤ buf.length := le_trans hn hbuf
  have hptr : retro_get_memory_data L L.RETRO_MEMORY_SAVE_RAM = game_data := by
    simp [retro_get_memory_data]
  refine ⟨rfl, by simp [retro_get_memory_size], hptr, ?_, ?_⟩
  · intro id hid
    simp [retro_get_memory_size, retro_get_memory_data, hid]
  · rw [hptr]
    refine ⟨{ s with game := { s.game with data := bytes } },
      bytes.take h.game_data_size ++ buf.drop h.game_data_size,
      { s with game := { s.game with data := buf.take h.game_data_size } }, rfl, ?_, ?_, ?_, rfl⟩
    · simp [retro_serialize, hlt, load_game_data, memcpy_eq _ _ _ hb (le_of_eq hbytes.symm)]
    · rw [List.take_append_of_le_length (by simp [hbytes]), List.take_take, Nat.min_self,
        List.take_of_length_le (le_of_eq hbytes)]
    · have h2 : bytes.drop h.game_data_size = [] := by
        simp [List.drop_eq_nil_iff, hbytes]
      simp [retro_unserialize, hlt, load_game_data,
        memcpy_eq _ _ _ (le_of_eq hbytes.symm) hb, store_game_data, h2]

/-- Witness for C7: the toy game, the host writing `[4, 3, 2, 1]` into the
save RAM, and a five-byte save-state buffer. -/
theorem save_ram_is_the_serialized_blob_witness :
    ([4, 3, 2, 1] : List Byte).length = toy_game.game_data_size ∧
    (retro_serialize_size toy_game = toy_game.game_data_size ∧
    retro_get_memory_size toy_game libretro_h libretro_h.RETRO_MEMORY_SAVE_RAM
      = toy_game.game_data_size ∧
    retro_get_memory_data libretro_h libretro_h.RETRO_MEMORY_SAVE_RAM = game_data ∧
    (∀ id, id ≠ libretro_h.RETRO_MEMORY_SAVE_RAM →
      retro_get_memory_size toy_game libretro_h id = 0 ∧
      retro_get_memory_data libretro_h id = Ptr.NULL) ∧
    (∃ s1 buf1 s2,
      (fresh [0, 0, 0, 0]).store (retro_get_memory_data libretro_h
        libretro_h.RETRO_MEMORY_SAVE_RAM) [4, 3, 2, 1] = some s1 ∧
      retro_serialize toy_game s1 [9, 8, 7, 6, 5] 5 = some (true, buf1, s1) ∧
      buf1.take toy_game.game_data_size = [4, 3, 2, 1] ∧
      retro_unserialize toy_game s1 [9, 8, 7, 6, 5] 5 = some (true, s2) ∧
      s2.load (retro_get_memory_data libretro_h libretro_h.RETRO_MEMORY_SAVE_RAM)
        = some (([9, 8, 7, 6, 5] : List Byte).take toy_game.game_data_size))) :=
  ⟨by decide,
    save_ram_is_the_serialized_blob toy_game libretro_h (fresh [0, 0, 0, 0]) [4, 3, 2, 1]
      [9, 8, 7, 6, 5] 5 (by decide) (by decide) (by decide)⟩

/-! ## One frame -/

/-- What `retro_run` does once the three callbacks it uses are registered. -/
theorem retro_run_eq (h : GameH X) (L : LibretroH) (s : State X) (poll video : Nat)
    (f : Nat → Nat → Nat → Nat → Int)
    (hpoll : s.input_poll_cb = some poll) (hstate : s.input_state_cb = some f)
    (hvideo : s.video_cb = some video) :
    retro_run h L s = some { s with
      game := h.game_render (h.game_update s.frame_time
        ⟨f 0 L.RETRO_DEVICE_JOYPAD 0 L.RETRO_DEVICE_ID_JOYPAD_UP,
         f 0 L.RETRO_DEVICE_JOYPAD 0 L.RETRO_DEVICE_ID_JOYPAD_RIGHT,
         f 0 L.RETRO_DEVICE_JOYPAD 0 L.RETRO_DEVICE_ID_JOYPAD_DOWN,
         f 0 L.RETRO_DEVICE_JOYPAD 0 L.RETRO_DEVICE_ID_JOYPAD_LEFT,
         f 0 L.RETRO_DEVICE_JOYPAD 0 L.RETRO_DEVICE_ID_JOYPAD_START,
         f 0 L.RETRO_DEVICE_JOYPAD 0 L.RETRO_DEVICE_ID_JOYPAD_SELECT⟩ s.game)
      trace := s.trace ++
        [Event.input_poll poll,
         Event.input_state 0 L.RETRO_DEVICE_JOYPAD 0 L.RETRO_DEVICE_ID_JOYPAD_UP,
         Event.input_state 0 L.RETRO_DEVICE_JOYPAD 0 L.RETRO_DEVICE_ID_JOYPAD_RIGHT,
         Event.input_state 0 L.RETRO_DEVICE_JOYPAD 0 L.RETRO_DEVICE_ID_JOYPAD_DOWN,
         Event.input_state 0 L.RETRO_DEVICE_JOYPAD 0 L.RETRO_DEVICE_ID_JOYPAD_LEFT,
         Event.input_state 0 L.RETRO_DEVICE_JOYPAD 0 L.RETRO_DEVICE_ID_JOYPAD_START,
         Event.input_state 0 L.RETRO_DEVICE_JOYPAD 0 L.RETRO_DEVICE_ID_JOYPAD_SELECT,
         Event.game_update s.frame_time
          ⟨f 0 L.RETRO_DEVICE_JOYPAD 0 L.RETRO_DEVICE_ID_JOYPAD_UP,
           f 0 L.RETRO_DEVICE_JOYPAD 0 L.RETRO_DEVICE_ID_JOYPAD_RIGHT,
           f 0 L.RETRO_DEVICE_JOYPAD 0 L.RETRO_DEVICE_ID_JOYPAD_DOWN,
           f 0 L.RETRO_DEVICE_JOYPAD 0 L.RETRO_DEVICE_ID_JOYPAD_LEFT,
           f 0 L.RETRO_DEVICE_JOYPAD 0 L.RETRO_DEVICE_ID_JOYPAD_START,
           f 0 L.RETRO_DEVICE_JOYPAD 0 L.RETRO_DEVICE_ID_JOYPAD_SELECT⟩,
         Event.game_render,
         Event.video_refresh video s.frame_buf h.SCREEN_WIDTH h.SCREEN_HEIGHT
          (h.SCREEN_PITCH (h.game_render (h.game_update s.frame_time
            ⟨f 0 L.RETRO_DEVICE_JOYPAD 0 L.RETRO_DEVICE_ID_JOYPAD_UP,
             f 0 L.RETRO_DEVICE_JOYPAD 0 L.RETRO_DEVICE_ID_JOYPAD_RIGHT,
             f 0 L.RETRO_DEVICE_JOYPAD 0 L.RETRO_DEVICE_ID_JOYPAD_DOWN,
             f 0 L.RETRO_DEVICE_JOYPAD 0 L.RETRO_DEVICE_ID_JOYPAD_LEFT,
             f 0 L.RETRO_DEVICE_JOYPAD 0 L.RETRO_DEVICE_ID_JOYPAD_START,
             f 0 L.RETRO_DEVICE_JOYPAD 0 L.RETRO_DEVICE_ID_JOYPAD_SELECT⟩ s.game)))] } := by
  simp [retro_run, hpoll, hstate, hvideo, State.emit]

theorem since_append (s1 s : State X) (evs : List Event) (ht : s1.trace = s.trace ++ evs) :
    s1.since s = evs := by
  simp [State.since, ht]

/-- C4: the key state `retro_run` hands to `game_update` has each flag equal to
the host's answer for port 0, device JOYPAD, index 0 and the button of the
same name; and with any other input-state function that gives the same answer
for a flag's own button, that flag comes out the same. -/
theorem retro_run_decodes_input (h : GameH X) (L : LibretroH) (s : State X)
    (poll video : Nat) (f : Nat → Nat → Nat → Nat → Int)
    (hpoll : s.input_poll_cb = some poll) (hstate : s.input_state_cb = some f)
    (hvideo : s.video_cb = some video) :
    ∃ s1 ks, retro_run h L s = some s1 ∧
      (s1.since s).filterMap Event.update_arg = [ks] ∧
      ks.up = f 0 L.RETRO_DEVICE_JOYPAD 0 L.RETRO_DEVICE_ID_JOYPAD_UP ∧
      ks.down = f 0 L.RETRO_DEVICE_JOYPAD 0 L.RETRO_DEVICE_ID_JOYPAD_DOWN ∧
      ks.left = f 0 L.RETRO_DEVICE_JOYPAD 0 L.RETRO_DEVICE_ID_JOYPAD_LEFT ∧
      ks.right = f 0 L.RETRO_DEVICE_JOYPAD 0 L.RETRO_DEVICE_ID_JOYPAD_RIGHT ∧
      ks.start = f 0 L.RETRO_DEVICE_JOYPAD 0 L.RETRO_DEVICE_ID_JOYPAD_START ∧
      ks.select = f 0 L.RETRO_DEVICE_JOYPAD 0 L.RETRO_DEVICE_ID_JOYPAD_SELECT ∧
      ∀ g : Nat → Nat → Nat → Nat → Int,
        ∃ s2 ks2, retro_run h L (retro_set_input_state s (some g)) = some s2 ∧
          (s2.since s).filterMap Event.update_arg = [ks2] ∧
          (g 0 L.RETRO_DEVICE_JOYPAD 0 L.RETRO_DEVICE_ID_JOYPAD_UP
            = f 0 L.RETRO_DEVICE_JOYPAD 0 L.RETRO_DEVICE_ID_JOYPAD_UP → ks2.up = ks.up) ∧
          (g 0 L.RETRO_DEVICE_JOYPAD 0 L.RETRO_DEVICE_ID_JOYPAD_DOWN
            = f 0 L.RETRO_DEVICE_JOYPAD 0 L.RETRO_DEVICE_ID_JOYPAD_DOWN → ks2.down = ks.down) ∧
          (g 0 L.RETRO_DEVICE_JOYPAD 0 L.RETRO_DEVICE_ID_JOYPAD_LEFT
            = f 0 L.RETRO_DEVICE_JOYPAD 0 L.RETRO_DEVICE_ID_JOYPAD_LEFT → ks2.left = ks.left) ∧
          (g 0 L.RETRO_DEVICE_JOYPAD 0 L.RETRO_DEVICE_ID_JOYPAD_RIGHT
            = f 0 L.RETRO_DEVICE_JOYPAD 0 L.RETRO_DEVICE_ID_JOYPAD_RIGHT →
              ks2.right = ks.right) ∧
          (g 0 L.RETRO_DEVICE_JOYPAD 0 L.RETRO_DEVICE_ID_JOYPAD_START
            = f 0 L.RETRO_DEVICE_JOYPAD 0 L.RETRO_DEVICE_ID_JOYPAD_START →
              ks2.start = ks.start) ∧
          (g 0 L.RETRO_DEVICE_JOYPAD 0 L.RETRO_DEVICE_ID_JOYPAD_SELECT
            = f 0 L.RETRO_DEVICE_JOYPAD 0 L.RETRO_DEVICE_ID_JOYPAD_SELECT →
              ks2.select = ks.select) := by
  refine ⟨_,
    ⟨f 0 L.RETRO_DEVICE_JOYPAD 0 L.RETRO_DEVICE_ID_JOYPAD_UP,
     f 0 L.RETRO_DEVICE_JOYPAD 0 L.RETRO_DEVICE_ID_JOYPAD_RIGHT,
     f 0 L.RETRO_DEVICE_JOYPAD 0 L.RETRO_DEVICE_ID_JOYPAD_DOWN,
     f 0 L.RETRO_DEVICE_JOYPAD 0 L.RETRO_DEVICE_ID_JOYPAD_LEFT,
     f 0 L.RETRO_DEVICE_JOYPAD 0 L.RETRO_DEVICE_ID_JOYPAD_START,
     f 0 L.RETRO_DEVICE_JOYPAD 0 L.RETRO_DEVICE_ID_JOYPAD_SELECT⟩,
    retro_run_eq h L s poll video f hpoll hstate hvideo, ?_, rfl, rfl, rfl, rfl, rfl, rfl, ?_⟩
  · rw [since_append _ s _ rfl]
    simp [Event.update_arg]
  · intro g
    refine ⟨_,
      ⟨g 0 L.RETRO_DEVICE_JOYPAD 0 L.RETRO_DEVICE_ID_JOYPAD_UP,
       g 0 L.RETRO_DEVICE_JOYPAD 0 L.RETRO_DEVICE_ID_JOYPAD_RIGHT,
       g 0 L.RETRO_DEVICE_JOYPAD 0 L.RETRO_DEVICE_ID_JOYPAD_DOWN,
       g 0 L.RETRO_DEVICE_JOYPAD 0 L.RETRO_DEVICE_ID_JOYPAD_LEFT,
       g 0 L.RETRO_DEVICE_JOYPAD 0 L.RETRO_DEVICE_ID_JOYPAD_START,
       g 0 L.RETRO_DEVICE_JOYPAD 0 L.RETRO_DEVICE_ID_JOYPAD_SELECT⟩,
      retro_run_eq h L (retro_set_input_state s (some g)) poll video g hpoll rfl hvideo,
      ?_, ?_⟩
    · rw [since_append _ s _ rfl]
      simp [Event.update_arg]
    · exact ⟨id, id, id, id, id, id⟩

/-! ## The frame buffer between `retro_init` and `retro_deinit` -/

theorem log_frame_buf (s s1 : State X) (level : Nat) (fmt : String)
    (hs : s.log level fmt = some s1) : s1.frame_buf = s.frame_buf := by
  cases hl : s.logging with
  | none => simp [State.log, hl] at hs
  | some fn =>
    simp [State.log, hl] at hs
    rw [← hs]
    rfl

theorem store_frame_buf (s s1 : State X) (p : Ptr) (bs : List Byte)
    (hs : s.store p bs = some s1) : s1.frame_buf = s.frame_buf := by
  cases p <;> simp [State.store] at hs
  rw [← hs]

theorem retro_set_environment_frame_buf (L : LibretroH) (s s1 : State X)
    (cb : Option (Nat → EnvArg → Bool × EnvArg))
    (hs : retro_set_environment L s cb = some s1) : s1.frame_buf = s.frame_buf := by
  cases cb with
  | none => simp [retro_set_environment] at hs
  | some f =>
    simp only [retro_set_environment, Option.bind_eq_bind, Option.some_bind] at hs
    split at hs
    · simp only [Option.some.injEq] at hs
      rw [← hs]
      rfl
    · split at hs
      · simp only [Option.some.injEq] at hs
        rw [← hs]
        rfl
      · simp at hs

theorem retro_run_frame_buf (h : GameH X) (L : LibretroH) (s s1 : State X)
    (hs : retro_run h L s = some s1) : s1.frame_buf = s.frame_buf := by
  cases hp : s.input_poll_cb with
  | none => simp [retro_run, hp] at hs
  | some poll =>
    cases hst : s.input_state_cb with
    | none => simp [retro_run, hp, hst, State.emit] at hs
    | some f =>
      cases hv : s.video_cb with
      | none => simp [retro_run, hp, hst, hv, State.emit] at hs
      | some video =>
        rw [retro_run_eq h L s poll video f hp hst hv] at hs
        simp only [Option.some.injEq] at hs
        rw [← hs]

theorem retro_load_game_frame_buf (L : LibretroH) (s : State X) (info : Option retro_game_info)
    (r : Bool × State X) (hs : retro_load_game L s info = some r) :
    r.2.frame_buf = s.frame_buf := by
  cases he : s.environ_cb with
  | none => simp [retro_load_game, he] at hs
  | some env =>
    simp only [retro_load_game, he, Option.bind_eq_bind, Option.some_bind] at hs
    split at hs
    · cases hl : (s.emit (Event.environ L.RETRO_ENVIRONMENT_SET_INPUT_DESCRIPTORS
          (EnvArg.input_descriptors (input_descriptors L)))).emit
          (Event.environ L.RETRO_ENVIRONMENT_SET_PIXEL_FORMAT
            (EnvArg.pixel_format L.RETRO_PIXEL_FORMAT_RGB565)) |>.log L.RETRO_LOG_INFO
          "RGB565 is not supported.\n" with
      | none => simp [hl] at hs
      | some s2 =>
        simp [hl] at hs
        rw [← hs]
        exact (log_frame_buf _ _ _ _ hl).trans rfl
    · simp only [Option.some.injEq] at hs
      rw [← hs]
      rfl

theorem retro_serialize_state (h : GameH X) (s : State X) (buf : List Byte) (n : Nat)
    (r : Bool × List Byte × State X) (hs : retro_serialize h s buf n = some r) : r.2.2 = s := by
  unfold retro_serialize at hs
  split at hs
  · simp only [Option.some.injEq] at hs
    rw [← hs]
  · cases h1 : s.load game_data with
    | none => simp [h1] at hs
    | some src =>
      cases h2 : memcpy buf src h.game_data_size with
      | none => simp [h1, h2] at hs
      | some dst =>
        simp [h1, h2] at hs
        rw [← hs]

theorem retro_unserialize_frame_buf (h : GameH X) (s : State X) (buf : List Byte) (n : Nat)
    (r : Bool × State X) (hs : retro_unserialize h s buf n = some r) :
    r.2.frame_buf = s.frame_buf := by
  unfold retro_unserialize at hs
  split at hs
  · simp only [Option.some.injEq] at hs
    rw [← hs]
  · cases h1 : s.load game_data with
    | none => simp [h1] at hs
    | some dst =>
      cases h2 : memcpy dst buf h.game_data_size with
      | none => simp [h1, h2] at hs
      | some dst1 =>
        cases h3 : s.store game_data dst1 with
        | none => simp [h1, h2, h3] at hs
        | some s2 =>
          simp [h1, h2, h3] at hs
          rw [← hs]
          exact store_frame_buf _ _ _ _ h3

theorem step_frame_buf (h : GameH X) (L : LibretroH) (s s1 : State X) (c : Call)
    (hs : step h L s c = some s1) : s1.frame_buf = s.frame_buf := by
  cases c with
  | set_environment cb => exact retro_set_environment_frame_buf L s s1 cb hs
  | run => exact retro_run_frame_buf h L s s1 hs
  | load_game info =>
    simp only [step, Option.map_eq_some'] at hs
    obtain ⟨r, hr, rfl⟩ := hs
    exact retro_load_game_frame_buf L s info r hr
  | serialize data_ size =>
    simp only [step, Option.map_eq_some'] at hs
    obtain ⟨r, hr, rfl⟩ := hs
    rw [retro_serialize_state h s data_ size r hr]
  | unserialize data_ size =>
    simp only [step, Option.map_eq_some'] at hs
    obtain ⟨r, hr, rfl⟩ := hs
    exact retro_unserialize_frame_buf h s data_ size r hr
  | write_memory id bytes => exact store_frame_buf _ _ _ _ hs
  | _ =>
    simp only [step, Option.some.injEq] at hs
    rw [← hs]
    rfl

theorem exec_frame_buf (h : GameH X) (L : LibretroH) (calls : List Call) :
    ∀ s s1 : State X, exec h L s calls = some s1 → s1.frame_buf = s.frame_buf := by
  induction calls with
  | nil =>
    intro s s1 hs
    simp only [exec, Option.some.injEq] at hs
    rw [hs]
  | cons c cs ih =>
    intro s s1 hs
    simp only [exec, Option.bind_eq_some] at hs
    obtain ⟨s2, h2, h3⟩ := hs
    rw [ih s2 s1 h3, step_frame_buf h L s s2 c h2]

theorem retro_init_frame_buf (h : GameH X) (L : LibretroH) (sys : Sys) (s s1 : State X)
    (hs : retro_init h L sys s = some s1) :
    s1.frame_buf = sys.calloc h.SCREEN_HEIGHT (h.SCREEN_PITCH (h.game_calculate_pitch s.game)) := by
  cases he : s.environ_cb with
  | none => simp [retro_init, he, State.emit] at hs
  | some env =>
    simp only [retro_init, State.emit, he, Option.bind_eq_bind, Option.some_bind] at hs
    split at hs
    · rename_i savedir _
      cases hf : sprintf_filename savedir with
      | none => simp [hf] at hs
      | some filename =>
        simp only [hf, Option.some_bind] at hs
        split at hs
        · simp only [load_game_data, Option.some_bind, store_game_data] at hs
          rename_i file _
          cases hr : fread (h.game_init
              (sys.calloc h.SCREEN_HEIGHT (h.SCREEN_PITCH (h.game_calculate_pitch s.game)))
              (h.game_calculate_pitch s.game)).data h.game_data_size file with
          | none => simp [hr] at hs
          | some dst =>
            simp [hr] at hs
            rw [← hs]
        · exact (log_frame_buf _ _ _ _ hs).trans rfl
    · exact (log_frame_buf _ _ _ _ hs).trans rfl
    · simp at hs

/-- C5: after `retro_init` and any further calls short of `retro_deinit`, a
call of `retro_run` makes exactly these calls, in this order: the input poll,
the six input-state reads, `game_update` with the decoded key state,
`game_render`, and the video callback with the buffer `retro_init` got from
`calloc` and SCREEN_WIDTH, SCREEN_HEIGHT, SCREEN_PITCH. -/
theorem retro_run_control_flow (h : GameH X) (L : LibretroH) (sys : Sys)
    (s0 s1 s2 : State X) (calls : List Call) (poll video : Nat)
    (f : Nat → Nat → Nat → Nat → Int)
    (hinit : retro_init h L sys s0 = some s1) (hcalls : exec h L s1 calls = some s2)
    (hpoll : s2.input_poll_cb = some poll) (hstate : s2.input_state_cb = some f)
    (hvideo : s2.video_cb = some video) :
    ∃ s3 ks, retro_run h L s2 = some s3 ∧
      ks = ⟨f 0 L.RETRO_DEVICE_JOYPAD 0 L.RETRO_DEVICE_ID_JOYPAD_UP,
         f 0 L.RETRO_DEVICE_JOYPAD 0 L.RETRO_DEVICE_ID_JOYPAD_RIGHT,
         f 0 L.RETRO_DEVICE_JOYPAD 0 L.RETRO_DEVICE_ID_JOYPAD_DOWN,
         f 0 L.RETRO_DEVICE_JOYPAD 0 L.RETRO_DEVICE_ID_JOYPAD_LEFT,
         f 0 L.RETRO_DEVICE_JOYPAD 0 L.RETRO_DEVICE_ID_JOYPAD_START,
         f 0 L.RETRO_DEVICE_JOYPAD 0 L.RETRO_DEVICE_ID_JOYPAD_SELECT⟩ ∧
      s3.since s2 =
        [Event.input_poll poll,
         Event.input_state 0 L.RETRO_DEVICE_JOYPAD 0 L.RETRO_DEVICE_ID_JOYPAD_UP,
         Event.input_state 0 L.RETRO_DEVICE_JOYPAD 0 L.RETRO_DEVICE_ID_JOYPAD_RIGHT,
         Event.input_state 0 L.RETRO_DEVICE_JOYPAD 0 L.RETRO_DEVICE_ID_JOYPAD_DOWN,
         Event.input_state 0 L.RETRO_DEVICE_JOYPAD 0 L.RETRO_DEVICE_ID_JOYPAD_LEFT,
         Event.input_state 0 L.RETRO_DEVICE_JOYPAD 0 L.RETRO_DEVICE_ID_JOYPAD_START,
         Event.input_state 0 L.RETRO_DEVICE_JOYPAD 0 L.RETRO_DEVICE_ID_JOYPAD_SELECT,
         Event.game_update s2.frame_time ks,
         Event.game_render,
         Event.video_refresh video
          (sys.calloc h.SCREEN_HEIGHT (h.SCREEN_PITCH (h.game_calculate_pitch s0.game)))
          h.SCREEN_WIDTH h.SCREEN_HEIGHT (h.SCREEN_PITCH s3.game)] ∧
      s3.trace = s2.trace ++ s3.since s2 ∧
      s3.game = h.game_render (h.game_update s2.frame_time ks s2.game) := by
  have hfb : s2.frame_buf
      = sys.calloc h.SCREEN_HEIGHT (h.SCREEN_PITCH (h.game_calculate_pitch s0.game)) := by
    rw [exec_frame_buf h L calls s1 s2 hcalls, retro_init_frame_buf h L sys s0 s1 hinit]
  refine ⟨_, _, retro_run_eq h L s2 poll video f hpoll hstate hvideo, rfl, ?_, ?_, rfl⟩
  · rw [since_append _ s2 _ rfl, hfb]
  · rw [since_append _ s2 _ rfl]

/-- Witness for C5: the toy game started without a save directory, then a
frame-time report and a reset, then the frame under study. -/
theorem retro_run_control_flow_witness :
    ∃ s1 s2, retro_init toy_game libretro_h (toy_sys none) (ready [] none true) = some s1 ∧
      exec toy_game libretro_h s1 [Call.frame_time 16666, Call.reset] = some s2 ∧
      ∃ s3 ks, retro_run toy_game libretro_h s2 = some s3 ∧
      ks = ⟨toy_pad 0 libretro_h.RETRO_DEVICE_JOYPAD 0 libretro_h.RETRO_DEVICE_ID_JOYPAD_UP,
         toy_pad 0 libretro_h.RETRO_DEVICE_JOYPAD 0 libretro_h.RETRO_DEVICE_ID_JOYPAD_RIGHT,
         toy_pad 0 libretro_h.RETRO_DEVICE_JOYPAD 0 libretro_h.RETRO_DEVICE_ID_JOYPAD_DOWN,
         toy_pad 0 libretro_h.RETRO_DEVICE_JOYPAD 0 libretro_h.RETRO_DEVICE_ID_JOYPAD_LEFT,
         toy_pad 0 libretro_h.RETRO_DEVICE_JOYPAD 0 libretro_h.RETRO_DEVICE_ID_JOYPAD_START,
         toy_pad 0 libretro_h.RETRO_DEVICE_JOYPAD 0 libretro_h.RETRO_DEVICE_ID_JOYPAD_SELECT⟩ ∧
      s3.since s2 =
        [Event.input_poll 12,
         Event.input_state 0 libretro_h.RETRO_DEVICE_JOYPAD 0 libretro_h.RETRO_DEVICE_ID_JOYPAD_UP,
         Event.input_state 0 libretro_h.RETRO_DEVICE_JOYPAD 0 libretro_h.RETRO_DEVICE_ID_JOYPAD_RIGHT,
         Event.input_state 0 libretro_h.RETRO_DEVICE_JOYPAD 0 libretro_h.RETRO_DEVICE_ID_JOYPAD_DOWN,
         Event.input_state 0 libretro_h.RETRO_DEVICE_JOYPAD 0 libretro_h.RETRO_DEVICE_ID_JOYPAD_LEFT,
         Event.input_state 0 libretro_h.RETRO_DEVICE_JOYPAD 0 libretro_h.RETRO_DEVICE_ID_JOYPAD_START,
         Event.input_state 0 libretro_h.RETRO_DEVICE_JOYPAD 0 libretro_h.RETRO_DEVICE_ID_JOYPAD_SELECT,
         Event.game_update s2.frame_time ks,
         Event.game_render,
         Event.video_refresh 11
          ((toy_sys none).calloc toy_game.SCREEN_HEIGHT (toy_game.SCREEN_PITCH (toy_game.game_calculate_pitch (ready [] none true).game)))
          toy_game.SCREEN_WIDTH toy_game.SCREEN_HEIGHT (toy_game.SCREEN_PITCH s3.game)] ∧
      s3.trace = s2.trace ++ s3.since s2 ∧
      s3.game = toy_game.game_render (toy_game.game_update s2.frame_time ks s2.game) :=
  ⟨_, _, rfl, rfl, retro_run_control_flow toy_game libretro_h (toy_sys none)
    (ready [] none true) _ _ [Call.frame_time 16666, Call.reset] 12 11 toy_pad rfl rfl rfl rfl
    rfl⟩

/-- Witness for C4: the toy game with UP and START held down. -/
theorem retro_run_decodes_input_witness :
    (ready [0, 0, 0, 0] none true).input_state_cb = some toy_pad ∧
    ∃ s1 ks, retro_run toy_game libretro_h (ready [0, 0, 0, 0] none true) = some s1 ∧
    (s1.since (ready [0, 0, 0, 0] none true)).filterMap Event.update_arg = [ks] ∧
    ks.up = toy_pad 0 libretro_h.RETRO_DEVICE_JOYPAD 0 libretro_h.RETRO_DEVICE_ID_JOYPAD_UP ∧
    ks.down = toy_pad 0 libretro_h.RETRO_DEVICE_JOYPAD 0 libretro_h.RETRO_DEVICE_ID_JOYPAD_DOWN ∧
    ks.left = toy_pad 0 libretro_h.RETRO_DEVICE_JOYPAD 0 libretro_h.RETRO_DEVICE_ID_JOYPAD_LEFT ∧
    ks.right = toy_pad 0 libretro_h.RETRO_DEVICE_JOYPAD 0 libretro_h.RETRO_DEVICE_ID_JOYPAD_RIGHT ∧
    ks.start = toy_pad 0 libretro_h.RETRO_DEVICE_JOYPAD 0 libretro_h.RETRO_DEVICE_ID_JOYPAD_START ∧
    ks.select = toy_pad 0 libretro_h.RETRO_DEVICE_JOYPAD 0 libretro_h.RETRO_DEVICE_ID_JOYPAD_SELECT ∧
    ∀ g : Nat → Nat → Nat → Nat → Int,
      ∃ s2 ks2, retro_run toy_game libretro_h (retro_set_input_state (ready [0, 0, 0, 0] none true) (some g)) = some s2 ∧
        (s2.since (ready [0, 0, 0, 0] none true)).filterMap Event.update_arg = [ks2] ∧
        (g 0 libretro_h.RETRO_DEVICE_JOYPAD 0 libretro_h.RETRO_DEVICE_ID_JOYPAD_UP
          = toy_pad 0 libretro_h.RETRO_DEVICE_JOYPAD 0 libretro_h.RETRO_DEVICE_ID_JOYPAD_UP → ks2.up = ks.up) ∧
        (g 0 libretro_h.RETRO_DEVICE_JOYPAD 0 libretro_h.RETRO_DEVICE_ID_JOYPAD_DOWN
          = toy_pad 0 libretro_h.RETRO_DEVICE_JOYPAD 0 libretro_h.RETRO_DEVICE_ID_JOYPAD_DOWN → ks2.down = ks.down) ∧
        (g 0 libretro_h.RETRO_DEVICE_JOYPAD 0 libretro_h.RETRO_DEVICE_ID_JOYPAD_LEFT
          = toy_pad 0 libretro_h.RETRO_DEVICE_JOYPAD 0 libretro_h.RETRO_DEVICE_ID_JOYPAD_LEFT → ks2.left = ks.left) ∧
        (g 0 libretro_h.RETRO_DEVICE_JOYPAD 0 libretro_h.RETRO_DEVICE_ID_JOYPAD_RIGHT
          = toy_pad 0 libretro_h.RETRO_DEVICE_JOYPAD 0 libretro_h.RETRO_DEVICE_ID_JOYPAD_RIGHT → ks2.right = ks.right) ∧
        (g 0 libretro_h.RETRO_DEVICE_JOYPAD 0 libretro_h.RETRO_DEVICE_ID_JOYPAD_START
          = toy_pad 0 libretro_h.RETRO_DEVICE_JOYPAD 0 libretro_h.RETRO_DEVICE_ID_JOYPAD_START → ks2.start = ks.start) ∧
        (g 0 libretro_h.RETRO_DEVICE_JOYPAD 0 libretro_h.RETRO_DEVICE_ID_JOYPAD_SELECT
          = toy_pad 0 libretro_h.RETRO_DEVICE_JOYPAD 0 libretro_h.RETRO_DEVICE_ID_JOYPAD_SELECT → ks2.select = ks.select) :=
  ⟨rfl, retro_run_decodes_input toy_game libretro_h (ready [0, 0, 0, 0] none true) 12 11 toy_pad
    rfl rfl rfl⟩

/-! ## Start and stop without a usable save file: the branches that log -/

/-- The two branches that log.  When the host stores a NULL save directory, or
stores a directory whose file name fits `filename[1024]` and whose file cannot
be opened, `retro_init` returns with the game module exactly as `game_init`
left it, transfers no file data and logs exactly one warning; `retro_deinit`
then transfers no file data, logs exactly one warning, calls `game_deinit`,
frees the frame buffer and clears `frame_buf`.  A host that stores nothing, and
a directory name that does not fit, are outside these branches. -/
theorem missing_save_location_is_not_fatal (h : GameH X) (L : LibretroH) (sys : Sys)
    (s : State X) (env : Nat → EnvArg → Bool × EnvArg) (lg : LogFn)
    (henv : s.environ_cb = some env) (hlog : s.logging = some lg)
    (hsave : (env L.RETRO_ENVIRONMENT_GET_SAVE_DIRECTORY EnvArg.uninit).2 = EnvArg.str none ∨
      ∃ dir filename,
        (env L.RETRO_ENVIRONMENT_GET_SAVE_DIRECTORY EnvArg.uninit).2 = EnvArg.str (some dir) ∧
        sprintf_filename dir = some filename ∧
        sys.fopen_rb filename = none ∧ sys.fopen_wb filename = false) :
    (∃ s1, retro_init h L sys s = some s1 ∧
      s1.game = h.game_init
        (sys.calloc h.SCREEN_HEIGHT (h.SCREEN_PITCH (h.game_calculate_pitch s.game)))
        (h.game_calculate_pitch s.game) ∧
      (s1.since s).filter Event.is_file_transfer = [] ∧
      ∃ fmt, (s1.since s).filter Event.is_log = [Event.log lg L.RETRO_LOG_WARN fmt]) ∧
    (∃ s2, retro_deinit h L sys s = some s2 ∧
      (s2.since s).filter Event.is_file_transfer = [] ∧
      (∃ fmt, (s2.since s).filter Event.is_log = [Event.log lg L.RETRO_LOG_WARN fmt]) ∧
      s2.game = h.game_deinit s.game ∧
      Event.game_deinit ∈ s2.since s ∧
      Event.free s.frame_buf ∈ s2.since s ∧
      s2.frame_buf = Ptr.NULL) := by
  rcases hsave with hnone | ⟨dir, filename, hdir, hname, hrb, hwb⟩
  · constructor
    · have hinit : retro_init h L sys s = some { s with
          frame_buf := sys.calloc h.SCREEN_HEIGHT
            (h.SCREEN_PITCH (h.game_calculate_pitch s.game))
          game := h.game_init
            (sys.calloc h.SCREEN_HEIGHT (h.SCREEN_PITCH (h.game_calculate_pitch s.game)))
            (h.game_calculate_pitch s.game)
          trace := s.trace ++
            [Event.game_calculate_pitch,
             Event.calloc h.SCREEN_HEIGHT (h.SCREEN_PITCH (h.game_calculate_pitch s.game)),
             Event.game_init (sys.calloc h.SCREEN_HEIGHT
              (h.SCREEN_PITCH (h.game_calculate_pitch s.game))),
             Event.environ L.RETRO_ENVIRONMENT_GET_SAVE_DIRECTORY EnvArg.uninit,
             Event.log lg L.RETRO_LOG_WARN
               "[2048] unable to load game data: save directory not set."] } := by
        simp [retro_init, henv, hnone, State.log, hlog, State.emit]
      refine ⟨_, hinit, rfl, ?_, "[2048] unable to load game data: save directory not set.", ?_⟩
      · rw [since_append _ s _ rfl]
        simp [Event.is_file_transfer]
      · rw [since_append _ s _ rfl]
        simp [Event.is_log]
    · have hdeinit : retro_deinit h L sys s = some { s with
          frame_buf := Ptr.NULL
          game := h.game_deinit s.game
          trace := s.trace ++
            [Event.environ L.RETRO_ENVIRONMENT_GET_SAVE_DIRECTORY EnvArg.uninit,
             Event.log lg L.RETRO_LOG_WARN
               "[2048] unable to save game data: save directory not set.",
             Event.game_deinit,
             Event.free s.frame_buf] } := by
        simp [retro_deinit, henv, hnone, State.log, hlog, State.emit]
      refine ⟨_, hdeinit, ?_, ⟨"[2048] unable to save game data: save directory not set.", ?_⟩, rfl, ?_, ?_, rfl⟩
      · rw [since_append _ s _ rfl]
        simp [Event.is_file_transfer]
      · rw [since_append _ s _ rfl]
        simp [Event.is_log]
      · rw [since_append _ s _ rfl]
        simp
      · rw [since_append _ s _ rfl]
        simp
  · constructor
    · have hinit : retro_init h L sys s = some { s with
          frame_buf := sys.calloc h.SCREEN_HEIGHT
            (h.SCREEN_PITCH (h.game_calculate_pitch s.game))
          game := h.game_init
            (sys.calloc h.SCREEN_HEIGHT (h.SCREEN_PITCH (h.game_calculate_pitch s.game)))
            (h.game_calculate_pitch s.game)
          trace := s.trace ++
            [Event.game_calculate_pitch,
             Event.calloc h.SCREEN_HEIGHT (h.SCREEN_PITCH (h.game_calculate_pitch s.game)),
             Event.game_init (sys.calloc h.SCREEN_HEIGHT
              (h.SCREEN_PITCH (h.game_calculate_pitch s.game))),
             Event.environ L.RETRO_ENVIRONMENT_GET_SAVE_DIRECTORY EnvArg.uninit,
             Event.fopen filename "rb",
             Event.log lg L.RETRO_LOG_WARN "[2048] unable to load game data: %s."] } := by
        simp [retro_init, henv, hdir, hname, hrb, State.log, hlog, State.emit]
      refine ⟨_, hinit, rfl, ?_, "[2048] unable to load game data: %s.", ?_⟩
      · rw [since_append _ s _ rfl]
        simp [Event.is_file_transfer]
      · rw [since_append _ s _ rfl]
        simp [Event.is_log]
    · have hdeinit : retro_deinit h L sys s = some { s with
          frame_buf := Ptr.NULL
          game := h.game_deinit s.game
          trace := s.trace ++
            [Event.environ L.RETRO_ENVIRONMENT_GET_SAVE_DIRECTORY EnvArg.uninit,
             Event.fopen filename "wb",
             Event.log lg L.RETRO_LOG_WARN "[2048] unable to save game data: %s.",
             Event.game_deinit,
             Event.free s.frame_buf] } := by
        simp [retro_deinit, henv, hdir, hname, hwb, State.log, hlog, State.emit]
      refine ⟨_, hdeinit, ?_, ⟨"[2048] unable to save game data: %s.", ?_⟩, rfl, ?_, ?_, rfl⟩
      · rw [since_append _ s _ rfl]
        simp [Event.is_file_transfer]
      · rw [since_append _ s _ rfl]
        simp [Event.is_log]
      · rw [since_append _ s _ rfl]
        simp
      · rw [since_append _ s _ rfl]
        simp

/-- The two logging branches on the toy game: a host that stores a NULL save
directory, and a host whose save directory `/s` holds no file that can be
opened. -/
theorem missing_save_location_is_not_fatal_witness :
    ((∃ s1, retro_init toy_game libretro_h (toy_sys none) (ready [] none true) = some s1 ∧
       s1.game = toy_game.game_init
         ((toy_sys none).calloc toy_game.SCREEN_HEIGHT (toy_game.SCREEN_PITCH (toy_game.game_calculate_pitch (ready [] none true).game)))
         (toy_game.game_calculate_pitch (ready [] none true).game) ∧
       (s1.since (ready [] none true)).filter Event.is_file_transfer = [] ∧
       ∃ fmt, (s1.since (ready [] none true)).filter Event.is_log = [Event.log LogFn.fallback_log libretro_h.RETRO_LOG_WARN fmt]) ∧
     (∃ s2, retro_deinit toy_game libretro_h (toy_sys none) (ready [] none true) = some s2 ∧
       (s2.since (ready [] none true)).filter Event.is_file_transfer = [] ∧
       (∃ fmt, (s2.since (ready [] none true)).filter Event.is_log = [Event.log LogFn.fallback_log libretro_h.RETRO_LOG_WARN fmt]) ∧
       s2.game = toy_game.game_deinit (ready [] none true).game ∧
       Event.game_deinit ∈ s2.since (ready [] none true) ∧
       Event.free (ready [] none true).frame_buf ∈ s2.since (ready [] none true) ∧
       s2.frame_buf = Ptr.NULL)) ∧
    sprintf_filename "/s" = some "/s/2048.srm" ∧
    ((∃ s1, retro_init toy_game libretro_h (toy_sys none) (ready [] (some "/s") true) = some s1 ∧
       s1.game = toy_game.game_init
         ((toy_sys none).calloc toy_game.SCREEN_HEIGHT (toy_game.SCREEN_PITCH (toy_game.game_calculate_pitch (ready [] (some "/s") true).game)))
         (toy_game.game_calculate_pitch (ready [] (some "/s") true).game) ∧
       (s1.since (ready [] (some "/s") true)).filter Event.is_file_transfer = [] ∧
       ∃ fmt, (s1.since (ready [] (some "/s") true)).filter Event.is_log = [Event.log LogFn.fallback_log libretro_h.RETRO_LOG_WARN fmt]) ∧
     (∃ s2, retro_deinit toy_game libretro_h (toy_sys none) (ready [] (some "/s") true) = some s2 ∧
       (s2.since (ready [] (some "/s") true)).filter Event.is_file_transfer = [] ∧
       (∃ fmt, (s2.since (ready [] (some "/s") true)).filter Event.is_log = [Event.log LogFn.fallback_log libretro_h.RETRO_LOG_WARN fmt]) ∧
       s2.game = toy_game.game_deinit (ready [] (some "/s") true).game ∧
       Event.game_deinit ∈ s2.since (ready [] (some "/s") true) ∧
       Event.free (ready [] (some "/s") true).frame_buf ∈ s2.since (ready [] (some "/s") true) ∧
       s2.frame_buf = Ptr.NULL)) :=
  ⟨missing_save_location_is_not_fatal toy_game libretro_h (toy_sys none) (ready [] none true)
      (toy_environ none true) LogFn.fallback_log rfl rfl (Or.inl rfl),
    by decide,
    missing_save_location_is_not_fatal toy_game libretro_h (toy_sys none)
      (ready [] (some "/s") true) (toy_environ (some "/s") true) LogFn.fallback_log rfl rfl
      (Or.inr ⟨"/s", "/s/2048.srm", rfl, by decide, rfl, rfl⟩)⟩

/-! ## Loading a game -/

/-- C9: `retro_load_game` asks the host for RETRO_PIXEL_FORMAT_RGB565 and
returns true exactly when the host accepts it, whatever the game-info argument;
when the host refuses, it logs, returns false, and has handed the host no
frame-time callback. -/
theorem retro_load_game_pixel_format (L : LibretroH) (s : State X)
    (env : Nat → EnvArg → Bool × EnvArg) (lg : LogFn) (info : Option retro_game_info)
    (henv : s.environ_cb = some env) (hlog : s.logging = some lg) :
    ∃ r s1, retro_load_game L s info = some (r, s1) ∧
      Event.environ L.RETRO_ENVIRONMENT_SET_PIXEL_FORMAT
        (EnvArg.pixel_format L.RETRO_PIXEL_FORMAT_RGB565) ∈ s1.since s ∧
      (r = true ↔ (env L.RETRO_ENVIRONMENT_SET_PIXEL_FORMAT
        (EnvArg.pixel_format L.RETRO_PIXEL_FORMAT_RGB565)).1 = true) ∧
      (r = false →
        s1.since s =
          [Event.environ L.RETRO_ENVIRONMENT_SET_INPUT_DESCRIPTORS
            (EnvArg.input_descriptors (input_descriptors L)),
           Event.environ L.RETRO_ENVIRONMENT_SET_PIXEL_FORMAT
            (EnvArg.pixel_format L.RETRO_PIXEL_FORMAT_RGB565),
           Event.log lg L.RETRO_LOG_INFO "RGB565 is not supported.\n"] ∧
        (s1.since s).filter Event.is_frame_time_registration = []) := by
  cases hacc : (env L.RETRO_ENVIRONMENT_SET_PIXEL_FORMAT
      (EnvArg.pixel_format L.RETRO_PIXEL_FORMAT_RGB565)).1 with
  | false =>
    have hload : retro_load_game L s info = some (false, { s with
        trace := s.trace ++
          [Event.environ L.RETRO_ENVIRONMENT_SET_INPUT_DESCRIPTORS
            (EnvArg.input_descriptors (input_descriptors L)),
           Event.environ L.RETRO_ENVIRONMENT_SET_PIXEL_FORMAT
            (EnvArg.pixel_format L.RETRO_PIXEL_FORMAT_RGB565),
           Event.log lg L.RETRO_LOG_INFO "RGB565 is not supported.\n"] }) := by
      simp [retro_load_game, henv, hacc, State.log, hlog, State.emit]
    refine ⟨_, _, hload, ?_, by simp, fun _ => ⟨?_, ?_⟩⟩
    · rw [since_append _ s _ rfl]
      simp
    · rw [since_append _ s _ rfl]
    · rw [since_append _ s _ rfl]
      simp [Event.is_frame_time_registration]
  | true =>
    have hload : retro_load_game L s info = some (true, { s with
        trace := s.trace ++
          [Event.environ L.RETRO_ENVIRONMENT_SET_INPUT_DESCRIPTORS
            (EnvArg.input_descriptors (input_descriptors L)),
           Event.environ L.RETRO_ENVIRONMENT_SET_PIXEL_FORMAT
            (EnvArg.pixel_format L.RETRO_PIXEL_FORMAT_RGB565),
           Event.environ L.RETRO_ENVIRONMENT_SET_FRAME_TIME_CALLBACK
            (EnvArg.frame_time_callback (1000000 / 60))] }) := by
      simp [retro_load_game, henv, hacc, State.emit]
    refine ⟨_, _, hload, ?_, by simp, by simp⟩
    rw [since_append _ s _ rfl]
    simp

/-- Witness for C9: a host that refuses the pixel format. -/
theorem retro_load_game_pixel_format_witness :
    ∃ r s1, retro_load_game libretro_h (ready [] none false) none = some (r, s1) ∧
      Event.environ libretro_h.RETRO_ENVIRONMENT_SET_PIXEL_FORMAT
        (EnvArg.pixel_format libretro_h.RETRO_PIXEL_FORMAT_RGB565)
          ∈ s1.since (ready [] none false) ∧
      (r = true ↔ (toy_environ none false libretro_h.RETRO_ENVIRONMENT_SET_PIXEL_FORMAT
        (EnvArg.pixel_format libretro_h.RETRO_PIXEL_FORMAT_RGB565)).1 = true) ∧
      (r = false →
        s1.since (ready [] none false) =
          [Event.environ libretro_h.RETRO_ENVIRONMENT_SET_INPUT_DESCRIPTORS
            (EnvArg.input_descriptors (input_descriptors libretro_h)),
           Event.environ libretro_h.RETRO_ENVIRONMENT_SET_PIXEL_FORMAT
            (EnvArg.pixel_format libretro_h.RETRO_PIXEL_FORMAT_RGB565),
           Event.log LogFn.fallback_log libretro_h.RETRO_LOG_INFO "RGB565 is not supported.\n"] ∧
        (s1.since (ready [] none false)).filter Event.is_frame_time_registration = []) :=
  retro_load_game_pixel_format libretro_h (ready [] none false) (toy_environ none false)
    LogFn.fallback_log none rfl rfl

/-! ## A save file shorter than the blob -/

/-- C8 does not hold of the code: with save directory `/s`, a save file of one
byte `0xAB` and the four-byte blob of the toy game, `retro_init` leaves the
blob with its first byte overwritten and logs nothing; with an empty save file
the blob is as `game_init` left it, and still nothing is logged. -/
theorem retro_init_short_save_file :
    (retro_init toy_game libretro_h (toy_sys (some [0xAB])) (ready [] (some "/s") true)).map
        (fun s => (s.game.data, s.trace.filter Event.is_log))
      = some ([0xAB, 0, 0, 0], []) ∧
    (retro_init toy_game libretro_h (toy_sys (some [])) (ready [] (some "/s") true)).map
        (fun s => (s.game.data, s.trace.filter Event.is_log))
      = some ([0, 0, 0, 0], []) ∧
    (retro_init toy_game libretro_h (toy_sys (some [0xAB])) (ready [] (some "/s") true)).map
        (fun s => s.trace)
      = some [Event.game_calculate_pitch, Event.calloc 464 752, Event.game_init (Ptr.heap 4096),
          Event.environ 31 EnvArg.uninit, Event.fopen "/s/2048.srm" "rb", Event.fread 4 1,
          Event.fclose] := by
  decide

/-! ## A host without a save directory answer, and a long directory name -/

set_option maxRecDepth 100000 in
/-- C6 does not hold of the code.  A host whose environment callback answers
false to GET_SAVE_DIRECTORY and stores nothing reports no save directory, yet
`retro_init` and `retro_deinit` then test the local `savedir` that nobody
initialised, so neither has a defined outcome.  And with a save directory of
1015 bytes whose file cannot be opened, `sprintf` runs past `filename[1024]`
before any `fopen`, so again neither has a defined outcome. -/
theorem retro_init_undefined_without_save_directory :
    silent_environ libretro_h.RETRO_ENVIRONMENT_GET_SAVE_DIRECTORY EnvArg.uninit
      = (false, EnvArg.uninit) ∧
    ((retro_set_environment libretro_h (fresh []) (some silent_environ)).map
      (fun s => s.logging)) = some (some LogFn.fallback_log) ∧
    ((retro_set_environment libretro_h (fresh []) (some silent_environ)).bind
      (retro_init toy_game libretro_h (toy_sys none))).isSome = false ∧
    ((retro_set_environment libretro_h (fresh []) (some silent_environ)).bind
      (retro_deinit toy_game libretro_h (toy_sys none))).isSome = false ∧
    long_dir.utf8ByteSize = 1015 ∧
    (toy_sys none).fopen_rb (long_dir ++ "/2048.srm") = none ∧
    (toy_sys none).fopen_wb (long_dir ++ "/2048.srm") = false ∧
    (retro_init toy_game libretro_h (toy_sys none) (ready [] (some long_dir) true)).isSome
      = false ∧
    (retro_deinit toy_game libretro_h (toy_sys none) (ready [] (some long_dir) true)).isSome
      = false := by
  decide

end Libretro2048
